import Mathlib

/-!
Verification of the vertex data contract declared in
`src/metal_shaders/shader_types.h`.

The header declares two Metal Shading Language (MSL) structs:

  struct VertexIn  { float3 position [[attribute(0)]];
                     float4 color    [[attribute(1)]]; };
  struct VertexOut { float4 position [[position]];
                     float4 color; };

We embed (a) the field declarations themselves — order, MSL type, and
binding — as data, (b) the MSL memory layout those declarations induce, and
(c) the records as scalar-polymorphic Lean structures, instantiated with raw
32-bit patterns for bit-level layout facts and with ℚ for arithmetic facts
about the (externally supplied) vertex-stage transform.
-/

/-- Name of a field in one of the two vertex records. -/
inductive FieldName where
  | position
  | color
  deriving DecidableEq, BEq

/-- MSL vector type of a field, as written in the source. -/
inductive MSLType where
  | float3
  | float4
  deriving DecidableEq, BEq

/-- Scalar element kind of an MSL vector type. -/
inductive MSLScalar where
  | float
  deriving DecidableEq, BEq

/-- Number of components of an MSL vector type. -/
def MSLType.componentCount : MSLType → Nat
  | .float3 => 3
  | .float4 => 4

/-- Scalar kind of the components of an MSL vector type. -/
def MSLType.scalar : MSLType → MSLScalar
  | .float3 => .float
  | .float4 => .float

/-- Byte size of an MSL vector type, per the MSL size and alignment rules
(a non-packed `float3` occupies 16 bytes, a `float4` 16 bytes). -/
def MSLType.byteSize : MSLType → Nat
  | .float3 => 16
  | .float4 => 16

/-- Byte alignment of an MSL vector type, per the MSL size and alignment
rules (both `float3` and `float4` align to 16 bytes). -/
def MSLType.byteAlign : MSLType → Nat
  | .float3 => 16
  | .float4 => 16

/-- Source-level binding written after a field: `[[attribute(n)]]` on a
vertex-stage input, or `[[position]]` marking the rasterizer position. -/
inductive FieldBinding where
  | attr (n : Nat)
  | rasterPosition
  deriving DecidableEq, BEq

/-- One field declaration of a struct: its name, its MSL type, and its
optional binding. -/
structure FieldDecl where
  name : FieldName
  type : MSLType
  binding : Option FieldBinding
  deriving DecidableEq, BEq

/-- The field declarations of `struct VertexIn`, in source order. -/
def VertexIn.decl : List FieldDecl :=
  [⟨.position, .float3, some (.attr 0)⟩,
   ⟨.color, .float4, some (.attr 1)⟩]

/-- The field declarations of `struct VertexOut`, in source order. -/
def VertexOut.decl : List FieldDecl :=
  [⟨.position, .float4, some .rasterPosition⟩,
   ⟨.color, .float4, none⟩]

/-- MSL type declared for a named field, looked up in a declaration list. -/
def typeOf (ds : List FieldDecl) (n : FieldName) : Option MSLType :=
  (ds.find? (fun d => d.name == n)).map FieldDecl.type

/-- Binding declared for a named field, looked up in a declaration list. -/
def bindingOf (ds : List FieldDecl) (n : FieldName) : Option FieldBinding :=
  match ds.find? (fun d => d.name == n) with
  | some d => d.binding
  | none => none

/-- Whether an optional binding is an `[[attribute(n)]]` binding. -/
def isAttrBinding : Option FieldBinding → Bool
  | some (.attr _) => true
  | _ => false

/-- Field, if any, that an attribute index resolves to in a declaration
list: the first field declared with `[[attribute(i)]]`. -/
def findAttr (ds : List FieldDecl) (i : Nat) : Option FieldName :=
  (ds.find? (fun d => d.binding == some (.attr i))).map FieldDecl.name

/-- Round `off` up to the next multiple of the alignment `a`. -/
def alignUp (off a : Nat) : Nat := ((off + a - 1) / a) * a

/-- Byte offsets of the fields of a struct whose field types are `ts`,
starting from offset `off`, per the MSL layout rule: each field starts at
the next offset aligned for its type. -/
def fieldOffsets : Nat → List MSLType → List Nat
  | _, [] => []
  | off, t :: ts =>
      let o := alignUp off t.byteAlign
      o :: fieldOffsets (o + t.byteSize) ts

/-- Offset just past the last field of a struct with field types `ts`. -/
def structEnd : Nat → List MSLType → Nat
  | off, [] => off
  | off, t :: ts => structEnd (alignUp off t.byteAlign + t.byteSize) ts

/-- Alignment of a struct: the maximum alignment of its field types. -/
def structAlign (ts : List MSLType) : Nat :=
  ts.foldr (fun t a => max t.byteAlign a) 1

/-- Byte size of a struct with field types `ts`: the end offset rounded up
to the struct alignment. -/
def structSize (ts : List MSLType) : Nat :=
  alignUp (structEnd 0 ts) (structAlign ts)

/-- Field types of `VertexIn`, in declaration order. -/
def VertexIn.fieldTypes : List MSLType := VertexIn.decl.map FieldDecl.type

/-- Field types of `VertexOut`, in declaration order. -/
def VertexOut.fieldTypes : List MSLType := VertexOut.decl.map FieldDecl.type

/-- Byte size of `struct VertexIn` under the MSL layout rules. -/
def VertexIn.byteSize : Nat := structSize VertexIn.fieldTypes

/-- Byte size of `struct VertexOut` under the MSL layout rules. -/
def VertexOut.byteSize : Nat := structSize VertexOut.fieldTypes

/-- Byte offset of `VertexIn.position` inside the struct. -/
def VertexIn.posOffset : Nat := (fieldOffsets 0 VertexIn.fieldTypes).getD 0 0

/-- Byte offset of `VertexIn.color` inside the struct. -/
def VertexIn.colorOffset : Nat := (fieldOffsets 0 VertexIn.fieldTypes).getD 1 0

/-- A 3-component vector with scalar representation `α`, the shape of the
MSL `float3` value held by `VertexIn.position`. -/
structure Float3 (α : Type) where
  x : α
  y : α
  z : α
  deriving DecidableEq

/-- A 4-component vector with scalar representation `α`, the shape of the
MSL `float4` values held by the color and output-position fields. -/
structure Float4 (α : Type) where
  x : α
  y : α
  z : α
  w : α
  deriving DecidableEq

/-- The vertex-stage input record of the source: `position` then `color`. -/
structure VertexIn (α : Type) where
  position : Float3 α
  color : Float4 α
  deriving DecidableEq

/-- The vertex-stage output record of the source: `position` then `color`. -/
structure VertexOut (α : Type) where
  position : Float4 α
  color : Float4 α
  deriving DecidableEq

/-- Value of one field of a `VertexIn` record (a `float3` or a `float4`). -/
inductive FieldValue (α : Type) where
  | ofFloat3 (v : Float3 α)
  | ofFloat4 (v : Float4 α)
  deriving DecidableEq

/-- Value held by a named field of a `VertexIn` record. -/
def VertexIn.fieldValue (v : VertexIn α) : FieldName → FieldValue α
  | .position => .ofFloat3 v.position
  | .color => .ofFloat4 v.color

/-- Value of a `VertexIn` record's field resolved through an attribute
index, via the `[[attribute(i)]]` bindings of the declaration. -/
def VertexIn.resolveAttr (v : VertexIn α) (i : Nat) : Option (FieldValue α) :=
  (findAttr VertexIn.decl i).map v.fieldValue

/-- Raw 32-bit scalar pattern as stored in a vertex buffer. Bit-identity of
stored components is equality of patterns; no arithmetic is ever performed
on them, so the unbounded carrier is immaterial. -/
abbrev Word32 := Nat

/-- A byte-addressed buffer of 32-bit words: the word whose first byte sits
at a given byte offset. -/
def Buffer := Nat → Word32

/-- Store one 32-bit word at a byte offset of a buffer. -/
def writeWord (b : Buffer) (off : Nat) (w : Word32) : Buffer :=
  fun o => if o = off then w else b o

/-- Modelled from the spec: the host-side producer that populates the
vertex buffer is absent from the source (spec §6 requires it to write
"3 floats for position, 4 floats for color, at the documented offsets");
this writes a record's components at the offsets the `VertexIn` layout
dictates. -/
def VertexIn.store (v : VertexIn Word32) (b : Buffer) : Buffer :=
  let b := writeWord b (VertexIn.posOffset + 0) v.position.x
  let b := writeWord b (VertexIn.posOffset + 4) v.position.y
  let b := writeWord b (VertexIn.posOffset + 8) v.position.z
  let b := writeWord b (VertexIn.colorOffset + 0) v.color.x
  let b := writeWord b (VertexIn.colorOffset + 4) v.color.y
  let b := writeWord b (VertexIn.colorOffset + 8) v.color.z
  writeWord b (VertexIn.colorOffset + 12) v.color.w

/-- Read a `VertexIn` record back from a buffer through the same layout:
each component from the offset the `VertexIn` layout dictates. -/
def VertexIn.load (b : Buffer) : VertexIn Word32 :=
  { position := ⟨b (VertexIn.posOffset + 0), b (VertexIn.posOffset + 4),
                 b (VertexIn.posOffset + 8)⟩,
    color := ⟨b (VertexIn.colorOffset + 0), b (VertexIn.colorOffset + 4),
              b (VertexIn.colorOffset + 8), b (VertexIn.colorOffset + 12)⟩ }

/-- Componentwise difference of two 3-vectors over ℚ. -/
def Float3.sub (a b : Float3 ℚ) : Float3 ℚ :=
  ⟨a.x - b.x, a.y - b.y, a.z - b.z⟩

/-- Componentwise difference of two 4-vectors over ℚ. -/
def Float4.sub (a b : Float4 ℚ) : Float4 ℚ :=
  ⟨a.x - b.x, a.y - b.y, a.z - b.z, a.w - b.w⟩

/-- Modelled from the spec: the vertex-stage transform function is absent
from the source (spec §9: "the source defines no transform logic at all").
Per spec §3 the stage maps one input record to one output record, with
`color` "carried through unchanged from input" and `position` produced by
an external position transform `f`. -/
def vertexStage (f : Float3 ℚ → Float4 ℚ) (v : VertexIn ℚ) : VertexOut ℚ :=
  { position := f v.position, color := v.color }

/-- Modelled from the spec: the "identity-like external stage that appends
w=1" of spec §8, as a position transform. -/
def appendW1 (p : Float3 ℚ) : Float4 ℚ := ⟨p.x, p.y, p.z, 1⟩

/-- Field access viewed as an operation on the record state: it returns
the `position` value together with the record it leaves behind. -/
def VertexIn.readPosition (v : VertexIn α) : Float3 α × VertexIn α :=
  (v.position, v)

/-- Field access viewed as an operation on the record state: it returns
the `color` value together with the record it leaves behind. -/
def VertexIn.readColor (v : VertexIn α) : Float4 α × VertexIn α :=
  (v.color, v)

/-- A concrete linear position transform used to instantiate the
noninterference theorem: drop into the xyz plane with w = 0. -/
def wLinear : Float3 ℚ → Float4 ℚ := fun p => ⟨p.x, p.y, p.z, 0⟩

/-- A concrete input record used to instantiate theorems. -/
def wIn1 : VertexIn ℚ := ⟨⟨1, 0, 0⟩, ⟨1, 0, 0, 1⟩⟩

/-- A second concrete input record: same color as `wIn1`, different
position. -/
def wIn2 : VertexIn ℚ := ⟨⟨0, 0, 0⟩, ⟨1, 0, 0, 1⟩⟩

/-- C1: attribute index 0 is bound to `position` and index 1 to `color`:
for any record instance, resolving index 0 yields the position value,
index 1 the color value, and every other index resolves to nothing. -/
theorem vertexIn_attr_resolution {α : Type} (v : VertexIn α) (i : Nat) :
    v.resolveAttr i =
      if i = 0 then some (FieldValue.ofFloat3 v.position)
      else if i = 1 then some (FieldValue.ofFloat4 v.color)
      else none := by
  match i with
  | 0 => rfl
  | 1 => rfl
  | (n + 2) => rfl

/-- C2 counterexample: the byte size of `VertexIn` is not 28 — MSL gives a
non-packed `float3` size and alignment 16, so the struct occupies 32
bytes. -/
theorem vertexIn_byteSize_ne_28 : ¬ (VertexIn.byteSize = 28) := by decide

/-- C2 (amended): `VertexIn` occupies 32 bytes and `VertexOut` 32 bytes,
each equal to the sum of its fields' MSL sizes with no padding beyond
natural alignment. -/
theorem record_byte_sizes :
    VertexIn.byteSize = 32 ∧ VertexOut.byteSize = 32 ∧
    VertexIn.byteSize = (VertexIn.fieldTypes.map MSLType.byteSize).sum ∧
    VertexOut.byteSize = (VertexOut.fieldTypes.map MSLType.byteSize).sum := by
  decide

/-- C3: `VertexIn.position` is a 3-component floating-point vector,
`VertexIn.color`, `VertexOut.position` and `VertexOut.color` are
4-component floating-point vectors. -/
theorem field_component_counts :
    (typeOf VertexIn.decl .position).map MSLType.componentCount = some 3 ∧
    (typeOf VertexIn.decl .color).map MSLType.componentCount = some 4 ∧
    (typeOf VertexOut.decl .position).map MSLType.componentCount = some 4 ∧
    (typeOf VertexOut.decl .color).map MSLType.componentCount = some 4 ∧
    (typeOf VertexIn.decl .position).map MSLType.scalar = some .float ∧
    (typeOf VertexIn.decl .color).map MSLType.scalar = some .float ∧
    (typeOf VertexOut.decl .position).map MSLType.scalar = some .float ∧
    (typeOf VertexOut.decl .color).map MSLType.scalar = some .float := by
  decide

/-- C4: writing any (position, color) pair into a buffer through the
`VertexIn` layout and reading it back through the same layout returns
bit-identical values. -/
theorem store_load_roundtrip (v : VertexIn Word32) (b : Buffer) :
    VertexIn.load (VertexIn.store v b) = v := by
  obtain ⟨⟨px, py, pz⟩, ⟨cx, cy, cz, cw⟩⟩ := v
  rfl

/-- C5: the input record with position (0,0,0) and color (1,0,0,1), run
through the identity-like stage that appends w = 1, yields exactly the
output record with position (0,0,0,1) and color (1,0,0,1). -/
theorem identity_like_stage_scenario :
    vertexStage appendW1 ⟨⟨0, 0, 0⟩, ⟨1, 0, 0, 1⟩⟩
      = ⟨⟨0, 0, 0, 1⟩, ⟨1, 0, 0, 1⟩⟩ := by
  rfl

/-- C6: two input records with identical color but different position,
processed independently by a stage whose position transform respects
differences, yield outputs with bit-identical colors and positions that
differ exactly by the transform applied to the position delta. -/
theorem stage_color_noninterference (f : Float3 ℚ → Float4 ℚ)
    (hf : ∀ a b, Float4.sub (f a) (f b) = f (Float3.sub a b))
    (v1 v2 : VertexIn ℚ) (hc : v1.color = v2.color)
    (_hp : v1.position ≠ v2.position) :
    (vertexStage f v1).color = (vertexStage f v2).color ∧
    Float4.sub (vertexStage f v1).position (vertexStage f v2).position
      = f (Float3.sub v1.position v2.position) :=
  ⟨by simpa [vertexStage] using hc, by simpa [vertexStage] using hf _ _⟩

/-- C6 witness: the noninterference theorem instantiated at the linear
transform `wLinear` and the concrete records `wIn1`, `wIn2`. -/
theorem stage_color_noninterference_witness :
    (vertexStage wLinear wIn1).color = (vertexStage wLinear wIn2).color ∧
    Float4.sub (vertexStage wLinear wIn1).position
        (vertexStage wLinear wIn2).position
      = wLinear (Float3.sub wIn1.position wIn2.position) :=
  stage_color_noninterference wLinear
    (by intro a b; simp [wLinear, Float4.sub, Float3.sub])
    wIn1 wIn2 (by decide) (by decide)

/-- C7: in both records `position` is declared first and `color` second,
and in the buffer layout the position data precedes the color data. -/
theorem field_declaration_order :
    VertexIn.decl.map FieldDecl.name = [.position, .color] ∧
    VertexOut.decl.map FieldDecl.name = [.position, .color] ∧
    VertexIn.posOffset < VertexIn.colorOffset := by
  decide

/-- C8: reading either field of a `VertexIn` is pure: it yields the field
value and leaves the record — both fields — unchanged, and reads commute
with each other. -/
theorem field_access_pure {α : Type} (v : VertexIn α) :
    (v.readPosition).1 = v.position ∧ (v.readPosition).2 = v ∧
    (v.readColor).1 = v.color ∧ (v.readColor).2 = v ∧
    ((v.readPosition).2.readColor).1 = ((v.readColor).2.readColor).1 := by
  exact ⟨rfl, rfl, rfl, rfl, rfl⟩

/-- C9: constructing a `VertexIn` from (p, c) and projecting gives back p
and c, and likewise for `VertexOut` from (q, d). -/
theorem mk_projection_roundtrip {α : Type} (p : Float3 α) (c : Float4 α)
    (q : Float4 α) (d : Float4 α) :
    (VertexIn.mk p c).position = p ∧ (VertexIn.mk p c).color = c ∧
    (VertexOut.mk q d).position = q ∧ (VertexOut.mk q d).color = d := by
  exact ⟨rfl, rfl, rfl, rfl⟩

/-- C10: both `VertexIn` fields carry attribute bindings (indices 0 and 1),
`VertexOut.position` alone carries the rasterizer position binding, and
`VertexOut.color` carries no binding at all. -/
theorem binding_placement :
    bindingOf VertexIn.decl .position = some (.attr 0) ∧
    bindingOf VertexIn.decl .color = some (.attr 1) ∧
    bindingOf VertexOut.decl .position = some .rasterPosition ∧
    bindingOf VertexOut.decl .color = none ∧
    VertexIn.decl.all (fun d => isAttrBinding d.binding) = true ∧
    VertexOut.decl.all (fun d => !isAttrBinding d.binding) = true ∧
    (VertexOut.decl.filter
        (fun d => d.binding == some .rasterPosition)).map FieldDecl.name
      = [.position] ∧
    VertexIn.decl.all
        (fun d => d.binding != some FieldBinding.rasterPosition) = true := by
  decide
